import Mathlib

/-!
Shallow embedding of the reservation/confirmation/cancellation coordinator of
`ticketmaster-go` (`internal/services/booking/booking.go`), together with the
Lock Store client (`internal/redis/redis.go`), the data model
(`internal/models/models.go`) and the mock payment gateway
(`internal/payment/...`).

Conventions of the embedding:
* Time is a `Nat` parameter (`now`, seconds); `time.Now()` inside one handler
  invocation is the single `now` passed to it; `10 * time.Minute` is `600`.
* Authentication (JWT extraction/validation) is an external collaborator; a
  handler receives `auth : Option Nat` — `none` models a missing/invalid
  token (the three 401 branches), `some uid` a validated `claims.UserID`.
* The relational store is `DB`: association lists of rows.  `First` with a
  condition is `List.find?` (rows are kept in primary-key order: `Create`
  appends and ids increase).  GORM soft-delete is modelled as removal, since
  every query in the service excludes soft-deleted rows.
* Durable writes are reified as a trace of `DurableAction`s: writes issued
  directly on `s.db` are `.single`, a committed `tx.Begin ... tx.Commit()`
  block is one `.txn` carrying its writes.  A rolled-back transaction commits
  nothing and leaves no trace.  Failures of individual writes are injected
  through explicit `Bool` flags, mirroring each `if err := ...; err != nil`
  branch in the source.  A statement whose payload cannot be stored in its
  column — the non-numeric intent id sent into the numeric `payment_id`
  column — errors at that statement exactly like any other failed write.
* The Lock Store is an association list `ticket id ↦ (holder, ttl)`;
  `SetNX key value 10*time.Minute` stores ttl `600` and fails iff the key is
  live; `Del` removes the key; `Get` errors iff the key is absent.
-/

/-- Embedding of `models.Ticket`: event reference, seat, price, status string
(default "available"), nullable owner (`UserID *uint`). Price is modelled
as a `Nat` (it is only passed through to the payment request). -/
structure Ticket where
  id : Nat
  eventID : Nat
  seat : String
  price : Nat
  status : String
  userID : Option Nat
deriving Repr, DecidableEq

/-- Embedding of `models.Booking`: ticket reference, user reference, status
string, reserved_at, expires_at, payment reference.  As in the source,
`PaymentID uint` is a numeric column (a Postgres `bigint` under
`models.Migrate` and `gorm.io/driver/postgres`), zero when unset.
`ConfirmBooking` sends the string gateway intent id as the `payment_id`
payload of a map update; whether a payload fits its column is modelled by
`dbWriteWellTyped` below. -/
structure Booking where
  id : Nat
  ticketID : Nat
  userID : Nat
  status : String
  reservedAt : Nat
  expiresAt : Nat
  paymentID : Nat
deriving Repr, DecidableEq

/-- The durable relational store: Ticket and Booking rows plus the next
primary key handed out by `Create`. -/
structure DB where
  tickets : List Ticket
  bookings : List Booking
  nextBookingID : Nat
deriving Repr, DecidableEq

/-- One Lock Store entry: holder user id and the TTL it was set with
(`redis.LockTicket` uses `SetNX(key, userID, 10*time.Minute)`). -/
structure LockEntry where
  holder : Nat
  ttl : Nat
deriving Repr, DecidableEq

/-- The Lock Store: ticket id ↦ entry. -/
structure LockStore where
  locks : List (Nat × LockEntry)
deriving Repr, DecidableEq

/-- Combined state seen by the coordinator. -/
structure SysState where
  db : DB
  ls : LockStore
deriving Repr, DecidableEq

/-- Lookup `s.db.First(&ticket, id)`. -/
def findTicket (db : DB) (tid : Nat) : Option Ticket :=
  db.tickets.find? (fun t => t.id == tid)

/-- Lookup `First(&booking, "ticket_id = ? AND user_id = ? AND status = ?", tid, uid,
"reserved")` in `ConfirmBooking`. -/
def findReservedBooking (db : DB) (tid uid : Nat) : Option Booking :=
  db.bookings.find? (fun b =>
    b.ticketID == tid && b.userID == uid && b.status == "reserved")

/-- Lookup `First(&booking, "id = ? AND user_id = ?", bookingID, uid)` in
`CancelBooking`. -/
def findBookingByIDUser (db : DB) (bid uid : Nat) : Option Booking :=
  db.bookings.find? (fun b => b.id == bid && b.userID == uid)

/-- Lookup `Find(&bookings, "user_id = ?", userID)` in `GetUserBookings`. -/
def findUserBookings (db : DB) (uid : Nat) : List Booking :=
  db.bookings.filter (fun b => b.userID == uid)

/-- One durable write, as issued by the handlers.  The owner argument of
`updateTicketRow` is `none` when the `user_id` column is not touched,
`some o` when it is set to `o` (`some none` = set to NULL). -/
inductive DbWrite where
  | createBooking (b : Booking)
  | deleteBooking (bid : Nat)
  | updateBookingRow (bid : Nat) (status : String) (payRef : Option String)
  | updateTicketRow (tid : Nat) (status : String) (owner : Option (Option Nat))
deriving Repr, DecidableEq

/-- Decimal numeral reading of a string, as Postgres coerces a text
parameter into a numeric column: at least one character, digits only. -/
def decimalValue? (s : String) : Option Nat :=
  if !s.data.isEmpty && s.data.all (fun c => c.isDigit) then
    some (s.data.foldl (fun n c => n * 10 + (c.toNat - 48)) 0)
  else none

/-- Value held by the numeric `payment_id` column after an update whose
payload is `payRef`: `none` leaves the column untouched, and a numeric
string payload is coerced by Postgres to its value. -/
def paymentColumn (payRef : Option String) (old : Nat) : Nat :=
  match payRef with
  | none => old
  | some s => (decimalValue? s).getD old

/-- Does the schema of `models.Migrate` accept the payload of this write?
Every column is typed as its field except `payment_id`: `PaymentID uint`
makes it a numeric column, so a string payload is accepted only when it is
a decimal numeral Postgres can coerce; the gateway intent id
`pi_mock_<uid>_<unix>` is not, and that update statement errors. -/
def dbWriteWellTyped : DbWrite → Bool
  | .updateBookingRow _ _ (some s) => (decimalValue? s).isSome
  | _ => true

/-- A durable action: a standalone write on `s.db`, or a committed
transaction (`tx.Begin` … `tx.Commit`) carrying its writes. -/
inductive DurableAction where
  | single (w : DbWrite)
  | txn (ws : List DbWrite)
deriving Repr, DecidableEq

def applyWrite (db : DB) (w : DbWrite) : DB :=
  match w with
  | .createBooking b =>
      { db with bookings := db.bookings ++ [b],
                nextBookingID := db.nextBookingID + 1 }
  | .deleteBooking bid =>
      { db with bookings := db.bookings.filter (fun b => b.id != bid) }
  | .updateBookingRow bid st payRef =>
      { db with bookings := db.bookings.map (fun b =>
          if b.id == bid then
            { b with status := st,
                     paymentID := paymentColumn payRef b.paymentID }
          else b) }
  | .updateTicketRow tid st owner =>
      { db with tickets := db.tickets.map (fun t =>
          if t.id == tid then
            { t with status := st, userID := owner.getD t.userID }
          else t) }

def applyAction (db : DB) (a : DurableAction) : DB :=
  match a with
  | .single w => applyWrite db w
  | .txn ws => ws.foldl applyWrite db

def applyTrace (db : DB) (tr : List DurableAction) : DB :=
  tr.foldl applyAction db

/-- Embedding of `redis.LockTicket`: `SetNX("ticket_lock:<tid>", uid, 10*time.Minute)`;
fails iff a live entry exists, otherwise stores holder `uid` with ttl 600. -/
def lockTicket (ls : LockStore) (tid uid : Nat) : Except String LockStore :=
  match ls.locks.find? (fun p => p.1 == tid) with
  | some _ => .error ("ticket " ++ toString tid ++ " is already locked")
  | none => .ok { locks := (tid, ⟨uid, 600⟩) :: ls.locks }

/-- Embedding of `redis.UnlockTicket`: `Del("ticket_lock:<tid>")`. -/
def unlockTicket (ls : LockStore) (tid : Nat) : LockStore :=
  { locks := ls.locks.filter (fun p => p.1 != tid) }

/-- Embedding of `redis.GetTicketLockOwner`: `Get` errors when the key is absent
(redis.Nil), otherwise returns the stored holder. -/
def getTicketLockOwner (ls : LockStore) (tid : Nat) : Except String Nat :=
  match ls.locks.find? (fun p => p.1 == tid) with
  | none => .error ("redis: nil")
  | some p => .ok p.2.holder

/-- Lock-store lookup used in specifications. -/
def lockEntryOf (ls : LockStore) (tid : Nat) : Option LockEntry :=
  (ls.locks.find? (fun p => p.1 == tid)).map (·.2)

/-- Embedding of `payment.PaymentResponse` (with the intent id inlined). -/
structure PaymentResponse where
  intentID : String
  success : Bool
  errMsg : String
deriving Repr, DecidableEq

/-- Outcome of `paymentClient.CreatePaymentIntent`: `err` models
`err != nil`, `resp r` a returned `PaymentResponse`. -/
inductive PaymentResult where
  | err
  | resp (r : PaymentResponse)
deriving Repr, DecidableEq

/-- Embedding of `payment.MockStripeClient.CreatePaymentIntent`: never returns a transport
error; the intent id is `pi_mock_<userID>_<unix time>`; success is a random
draw against the configured rate, passed in as `draw`. -/
def mockCreatePaymentIntent (uid now : Nat) (draw : Bool) : PaymentResult :=
  .resp { intentID := "pi_mock_" ++ toString uid ++ "_" ++ toString now,
          success := draw,
          errMsg := if draw then "" else
            "Mock payment failure - insufficient funds" }

/-- Injected failures for the durable writes a handler issues, one flag per
`if err := ...; err != nil` branch in the source. -/
structure DbFailures where
  createBookingFails : Bool
  bookingUpdateFails : Bool
  ticketUpdateFails : Bool
  commitFails : Bool
deriving Repr, DecidableEq

def noDbFailures : DbFailures :=
  ⟨false, false, false, false⟩

/-- Response branches of `ReserveTicket`, one per `c.JSON` site. -/
inductive ReserveResp where
  | authRequired                  -- 401, the three token branches
  | ticketNotFound                -- 404
  | notAvailable                  -- 409, status ≠ "available"
  | lockConflict                  -- 409, LockTicket failed
  | createFailed                  -- 500, db.Create failed
  | ok (bookingID tid expiresAt : Nat)  -- 200
deriving Repr, DecidableEq

/-- Embedding of `booking.Service.ReserveTicket` (booking.go:43–139), with auth and body
parsing abstracted to the `auth`/`tid` arguments. -/
def reserveTicket (st : SysState) (auth : Option Nat) (tid : Nat) (now : Nat)
    (fail : DbFailures) : ReserveResp × SysState × List DurableAction :=
  match auth with
  | none => (.authRequired, st, [])
  | some uid =>
    match findTicket st.db tid with
    | none => (.ticketNotFound, st, [])
    | some ticket =>
      if ticket.status != "available" then
        (.notAvailable, st, [])
      else
        match lockTicket st.ls tid uid with
        | .error _ => (.lockConflict, st, [])
        | .ok ls1 =>
          let booking : Booking :=
            { id := st.db.nextBookingID
              ticketID := tid
              userID := uid
              status := "reserved"
              reservedAt := now
              expiresAt := now + 600
              paymentID := 0 }
          if fail.createBookingFails then
            -- release the lock if the database operation fails
            (.createFailed, { st with ls := unlockTicket ls1 tid }, [])
          else
            let tr : List DurableAction :=
              [.single (.createBooking booking),
               .single (.updateTicketRow tid "reserved" none)]
            (.ok booking.id tid booking.expiresAt,
             { db := applyTrace st.db tr, ls := ls1 }, tr)

/-- Response branches of `ConfirmBooking`, one per `c.JSON` site. -/
inductive ConfirmResp where
  | authRequired                   -- 401
  | noActiveReservation            -- 404
  | expired                        -- 410 Gone
  | lockReleased                   -- 409 Conflict
  | paymentProcessingFailed        -- 500, gateway err != nil
  | paymentFailed (details : String)  -- 402
  | confirmFailed                  -- 500, booking update / commit failed
  | ticketUpdateFailed             -- 500
  | ok (bookingID tid : Nat) (paymentID : String)  -- 200
deriving Repr, DecidableEq

/-- Embedding of `booking.Service.ConfirmBooking` (booking.go:141–291).  `pay` is the
result of the `CreatePaymentIntent` call (the gateway is an external
collaborator; the service instantiates it with the mock client). -/
def confirmBooking (st : SysState) (auth : Option Nat) (tid : Nat)
    (now : Nat) (pay : PaymentResult) (fail : DbFailures) :
    ConfirmResp × SysState × List DurableAction :=
  match auth with
  | none => (.authRequired, st, [])
  | some uid =>
    match findReservedBooking st.db tid uid with
    | none => (.noActiveReservation, st, [])
    | some booking =>
      if now > booking.expiresAt then
        -- clean up expired booking: three separate store operations
        let tr : List DurableAction :=
          [.single (.deleteBooking booking.id),
           .single (.updateTicketRow tid "available" none)]
        (.expired,
         { db := applyTrace st.db tr, ls := unlockTicket st.ls tid }, tr)
      else
        match getTicketLockOwner st.ls tid with
        | .error _ => (.lockReleased, st, [])
        | .ok owner =>
          if owner != uid then
            (.lockReleased, st, [])
          else
            match pay with
            | .err => (.paymentProcessingFailed, st, [])
            | .resp presp =>
              if !presp.success then
                (.paymentFailed presp.errMsg, st, [])
              else
                -- database transaction: booking + ticket, then commit;
                -- the booking update errors if injected to fail or if its
                -- payment_id payload does not fit the numeric column
                if fail.bookingUpdateFails
                    || !(dbWriteWellTyped (.updateBookingRow booking.id
                          "confirmed" (some presp.intentID))) then
                  (.confirmFailed, st, [])
                else if fail.ticketUpdateFails then
                  (.ticketUpdateFailed, st, [])
                else if fail.commitFails then
                  (.confirmFailed, st, [])
                else
                  let tr : List DurableAction :=
                    [.txn
                      [.updateBookingRow booking.id "confirmed"
                         (some presp.intentID),
                       .updateTicketRow booking.ticketID "booked"
                         (some (some uid))]]
                  (.ok booking.id tid presp.intentID,
                   { db := applyTrace st.db tr,
                     ls := unlockTicket st.ls tid }, tr)

/-- Response branches of `CancelBooking`, one per `c.JSON` site. -/
inductive CancelResp where
  | authRequired                  -- 401
  | bookingNotFound               -- 404
  | cancelFailed                  -- 500, booking update / commit failed
  | ticketUpdateFailed            -- 500
  | ok                            -- 200
deriving Repr, DecidableEq

/-- Embedding of `booking.Service.CancelBooking` (booking.go:293–387). -/
def cancelBooking (st : SysState) (auth : Option Nat) (bid : Nat)
    (fail : DbFailures) : CancelResp × SysState × List DurableAction :=
  match auth with
  | none => (.authRequired, st, [])
  | some uid =>
    match findBookingByIDUser st.db bid uid with
    | none => (.bookingNotFound, st, [])
    | some booking =>
      -- database transaction: booking cancelled + ticket available, commit
      if fail.bookingUpdateFails then
        (.cancelFailed, st, [])
      else if fail.ticketUpdateFails then
        (.ticketUpdateFailed, st, [])
      else if fail.commitFails then
        (.cancelFailed, st, [])
      else
        let tr : List DurableAction :=
          [.txn
            [.updateBookingRow booking.id "cancelled" none,
             .updateTicketRow booking.ticketID "available" (some none)]]
        (.ok,
         { db := applyTrace st.db tr,
           ls := unlockTicket st.ls booking.ticketID }, tr)

/-- Response branches of `GetUserBookings`. -/
inductive BookingsResp where
  | authRequired                  -- 401
  | accessDenied                  -- 403
  | ok (bookings : List Booking)  -- 200
deriving Repr, DecidableEq

/-- Embedding of `booking.Service.GetUserBookings` (booking.go:389–445): read-only. -/
def getUserBookings (st : SysState) (auth : Option Nat)
    (requestedUserID : Nat) : BookingsResp :=
  match auth with
  | none => .authRequired
  | some uid =>
    if uid != requestedUserID then
      .accessDenied
    else
      .ok (findUserBookings st.db requestedUserID)

/-! ## Atomicity of durable traces

The spec invariant: a transition of a Booking to `confirmed`, or of a
Ticket back to `available` (cancel/expiry), must update the Booking row and
the Ticket row together in one Durable Store transaction. -/

/-- Does this write set a Booking row to status `confirmed`? -/
def writesBookingConfirmed : DbWrite → Bool
  | .updateBookingRow _ st _ => st == "confirmed"
  | _ => false

/-- Does this write set a Ticket row back to status `available`? -/
def writesTicketAvailable : DbWrite → Bool
  | .updateTicketRow _ st _ => st == "available"
  | _ => false

/-- Does this write touch a Booking row? -/
def touchesBookingRow : DbWrite → Bool
  | .createBooking _ => true
  | .deleteBooking _ => true
  | .updateBookingRow _ _ _ => true
  | .updateTicketRow _ _ _ => false

/-- Does this write touch a Ticket row? -/
def touchesTicketRow : DbWrite → Bool
  | .updateTicketRow _ _ _ => true
  | _ => false

/-- A durable action respects the pairing invariant when any
booking-confirmed or ticket-available write inside it happens in a
transaction that also carries a write to the other row. -/
def actionAtomic : DurableAction → Bool
  | .single w => !(writesBookingConfirmed w || writesTicketAvailable w)
  | .txn ws =>
      !(ws.any (fun w => writesBookingConfirmed w || writesTicketAvailable w))
        || (ws.any touchesBookingRow && ws.any touchesTicketRow)

/-- Every action of the trace respects the pairing invariant. -/
def tracePairsAtomically (tr : List DurableAction) : Bool :=
  tr.all actionAtomic

/-- Row lookup by primary key on bookings. -/
def findBookingByID (db : DB) (bid : Nat) : Option Booking :=
  db.bookings.find? (fun b => b.id == bid)

/-- The created booking row of a successful `ReserveTicket`. -/
def reservedRow (db : DB) (tid uid now : Nat) : Booking :=
  { id := db.nextBookingID, ticketID := tid, userID := uid,
    status := "reserved", reservedAt := now, expiresAt := now + 600,
    paymentID := 0 }

/-- The round trip of spec §8.4: Reserve, then Confirm with the mock
gateway succeeding, on the same ticket and user. -/
def reserveThenConfirm (st : SysState) (uid tid now now2 : Nat) :
    ConfirmResp × SysState × List DurableAction :=
  confirmBooking (reserveTicket st (some uid) tid now noDbFailures).2.1
    (some uid) tid now2 (mockCreatePaymentIntent uid now2 true) noDbFailures

/-! ## Concrete fixtures -/

/-- An available ticket with id 1. -/
def tAvail : Ticket :=
  { id := 1, eventID := 1, seat := "A1", price := 100,
    status := "available", userID := none }

/-- A store holding only the available ticket 1, no bookings, no locks. -/
def stAvail : SysState :=
  { db := { tickets := [tAvail], bookings := [], nextBookingID := 1 },
    ls := { locks := [] } }

/-- A reservation of ticket 1 by user 7 made at time 0 (expires at 600). -/
def bRes : Booking :=
  { id := 1, ticketID := 1, userID := 7, status := "reserved",
    reservedAt := 0, expiresAt := 600, paymentID := 0 }

/-- State right after that reservation: ticket reserved, booking live,
lock held by user 7. -/
def stRes : SysState :=
  { db := { tickets := [{ tAvail with status := "reserved" }],
            bookings := [bRes], nextBookingID := 2 },
    ls := { locks := [(1, ⟨7, 600⟩)] } }

/-- The same booking already cancelled, its ticket back to available,
no lock. -/
def stCancelled : SysState :=
  { db := { tickets := [tAvail],
            bookings := [{ bRes with status := "cancelled" }],
            nextBookingID := 2 },
    ls := { locks := [] } }
/-! ## Generic helper lemmas -/

/-- Lemma: `find?` commutes with a map that does not change the predicate. -/
theorem find_map_preserve {α : Type} (l : List α) (p : α → Bool) (f : α → α)
    (hf : ∀ a, p (f a) = p a) :
    (l.map f).find? p = (l.find? p).map f := by
  rw [List.find?_map]
  have hpf : (p ∘ f) = p := funext hf
  rw [hpf]

/-- Lemma: `find?` over an append whose left part has no match. -/
theorem find_append_left_none {α : Type} {l₁ : List α} (l₂ : List α)
    {p : α → Bool} (h : l₁.find? p = none) :
    (l₁ ++ l₂).find? p = l₂.find? p := by
  rw [List.find?_append, h, Option.none_or]

/-- Lemma: `find?` after a conditional in-place update keyed by the same predicate:
the found row is the updated row. -/
theorem find_map_cond {α : Type} (l : List α) (p : α → Bool) (u : α → α)
    (hu : ∀ a, p (u a) = p a) :
    (l.map (fun a => if p a then u a else a)).find? p = (l.find? p).map u := by
  induction l with
  | nil => rfl
  | cons a t ih =>
    simp only [List.map_cons]
    by_cases h : p a = true
    · rw [if_pos h, List.find?_cons_of_pos _ (by rw [hu]; exact h),
        List.find?_cons_of_pos _ h]
      rfl
    · rw [if_neg h, List.find?_cons_of_neg _ h, List.find?_cons_of_neg _ h]
      exact ih

/-- Updating a ticket row commutes with `findTicket`. -/
theorem findTicket_applyUpdate (db : DB) (tid : Nat) (s : String)
    (o : Option (Option Nat)) :
    findTicket (applyWrite db (.updateTicketRow tid s o)) tid
      = (findTicket db tid).map
          (fun t => { t with status := s, userID := o.getD t.userID }) := by
  simp only [findTicket, applyWrite]
  exact find_map_cond db.tickets (fun t => t.id == tid)
    (fun t => { t with status := s, userID := o.getD t.userID })
    (fun t => rfl)


/-- Updating a booking row commutes with `findBookingByID`. -/
theorem findBookingByID_applyUpdate (db : DB) (bid : Nat) (s : String)
    (payRef : Option String) :
    findBookingByID (applyWrite db (.updateBookingRow bid s payRef)) bid
      = (findBookingByID db bid).map
          (fun b => { b with status := s,
                             paymentID := paymentColumn payRef b.paymentID })
      := by
  simp only [findBookingByID, applyWrite]
  exact find_map_cond db.bookings (fun b => b.id == bid)
    (fun b => { b with status := s,
                       paymentID := paymentColumn payRef b.paymentID })
    (fun b => rfl)

/-- After `UnlockTicket` the Lock Store holds no entry for the ticket. -/
theorem lockEntryOf_unlock (ls : LockStore) (tid : Nat) :
    lockEntryOf (unlockTicket ls tid) tid = none := by
  unfold lockEntryOf unlockTicket
  have h : (ls.locks.filter (fun p => p.1 != tid)).find?
      (fun p => p.1 == tid) = none := by
    rw [List.find?_eq_none]
    intro x hx
    have := (List.mem_filter.mp hx).2
    simp only [bne_iff_ne, ne_eq] at this
    simp [this]
  rw [h]
  rfl

/-- Lemma: `lockEntryOf` and `lockTicket` failure agree on liveness. -/
theorem lockTicket_of_absent (ls : LockStore) (tid uid : Nat)
    (h : lockEntryOf ls tid = none) :
    lockTicket ls tid uid = .ok { locks := (tid, ⟨uid, 600⟩) :: ls.locks } := by
  unfold lockTicket
  unfold lockEntryOf at h
  cases hf : ls.locks.find? (fun p => p.1 == tid) with
  | none => rfl
  | some p => rw [hf] at h; simp at h



/-! ## Shared handler-shape lemmas -/


/-- Full description of `ReserveTicket` on an available, unlocked ticket
when the booking insert succeeds. -/
theorem reserveTicket_ok (st : SysState) (uid tid now : Nat)
    (fail : DbFailures) (t : Ticket)
    (ht : findTicket st.db tid = some t) (hs : t.status = "available")
    (hl : lockEntryOf st.ls tid = none)
    (hc : fail.createBookingFails = false) :
    reserveTicket st (some uid) tid now fail =
      (.ok st.db.nextBookingID tid (now + 600),
       { db :=
           { tickets := st.db.tickets.map (fun x =>
               if x.id == tid then
                 { x with status := "reserved", userID := x.userID }
               else x),
             bookings := st.db.bookings ++ [reservedRow st.db tid uid now],
             nextBookingID := st.db.nextBookingID + 1 },
         ls := { locks := (tid, ⟨uid, 600⟩) :: st.ls.locks } },
       [.single (.createBooking (reservedRow st.db tid uid now)),
        .single (.updateTicketRow tid "reserved" none)]) := by
  unfold reserveTicket
  rw [ht]
  dsimp only
  rw [hs]
  rw [lockTicket_of_absent st.ls tid uid hl]
  dsimp only
  rw [hc]
  dsimp only [applyTrace, applyAction, applyWrite, List.foldl]
  rfl

/-- Shape of `ConfirmBooking` on an expired reservation: delete the booking, release
the lock, reset the ticket — three separate store operations, return 410. -/
theorem confirmBooking_expired_eq (st : SysState) (uid tid now : Nat)
    (pay : PaymentResult) (fail : DbFailures) (booking : Booking)
    (hb : findReservedBooking st.db tid uid = some booking)
    (hexp : now > booking.expiresAt) :
    confirmBooking st (some uid) tid now pay fail =
      (.expired,
       { db := applyWrite (applyWrite st.db (.deleteBooking booking.id))
                 (.updateTicketRow tid "available" none),
         ls := unlockTicket st.ls tid },
       [.single (.deleteBooking booking.id),
        .single (.updateTicketRow tid "available" none)]) := by
  simp only [confirmBooking]
  rw [hb]
  dsimp only
  rw [if_pos hexp]
  rfl

/-- Shape of `ConfirmBooking`, live reservation, lock absent or held by another
user: 409, no state change, no durable write. -/
theorem confirmBooking_lock_mismatch_eq (st : SysState) (uid tid now : Nat)
    (pay : PaymentResult) (fail : DbFailures) (booking : Booking)
    (hb : findReservedBooking st.db tid uid = some booking)
    (hexp : ¬ now > booking.expiresAt)
    (hl : ∀ o, getTicketLockOwner st.ls tid = .ok o → o ≠ uid) :
    confirmBooking st (some uid) tid now pay fail = (.lockReleased, st, []) := by
  simp only [confirmBooking]
  rw [hb]
  dsimp only
  rw [if_neg hexp]
  cases hg : getTicketLockOwner st.ls tid with
  | error e => rfl
  | ok o =>
    dsimp only
    rw [if_pos (by simp [bne_iff_ne, hl o hg])]

/-- Shape of `ConfirmBooking`, live reservation, lock held by the caller, gateway
call returns `err != nil`: 500, no state change, no durable write. -/
theorem confirmBooking_gateway_err_eq (st : SysState) (uid tid now : Nat)
    (fail : DbFailures) (booking : Booking)
    (hb : findReservedBooking st.db tid uid = some booking)
    (hexp : ¬ now > booking.expiresAt)
    (hl : getTicketLockOwner st.ls tid = .ok uid) :
    confirmBooking st (some uid) tid now .err fail =
      (.paymentProcessingFailed, st, []) := by
  simp only [confirmBooking]
  rw [hb]
  dsimp only
  rw [if_neg hexp, hl]
  dsimp only
  rw [if_neg (by simp)]

/-- Shape of `ConfirmBooking`, live reservation, lock held by the caller, payment
declined: 402, no state change, no durable write. -/
theorem confirmBooking_declined_eq (st : SysState) (uid tid now : Nat)
    (fail : DbFailures) (booking : Booking) (r : PaymentResponse)
    (hb : findReservedBooking st.db tid uid = some booking)
    (hexp : ¬ now > booking.expiresAt)
    (hl : getTicketLockOwner st.ls tid = .ok uid)
    (hr : r.success = false) :
    confirmBooking st (some uid) tid now (.resp r) fail =
      (.paymentFailed r.errMsg, st, []) := by
  simp only [confirmBooking]
  rw [hb]
  dsimp only
  rw [if_neg hexp, hl]
  dsimp only
  rw [if_neg (by simp)]
  rw [if_pos (by simp [hr])]

/-- Shape of `ConfirmBooking`, happy path: one committed transaction updating the
Booking row (confirmed, payment ref) and the Ticket row (booked, owner),
then lock release, then 200. -/
theorem confirmBooking_success_eq (st : SysState) (uid tid now : Nat)
    (fail : DbFailures) (booking : Booking) (r : PaymentResponse)
    (hb : findReservedBooking st.db tid uid = some booking)
    (hexp : ¬ now > booking.expiresAt)
    (hl : getTicketLockOwner st.ls tid = .ok uid)
    (hr : r.success = true)
    (hw : dbWriteWellTyped
        (.updateBookingRow booking.id "confirmed" (some r.intentID)) = true)
    (h1 : fail.bookingUpdateFails = false)
    (h2 : fail.ticketUpdateFails = false)
    (h3 : fail.commitFails = false) :
    confirmBooking st (some uid) tid now (.resp r) fail =
      (.ok booking.id tid r.intentID,
       { db := applyWrite
           (applyWrite st.db
             (.updateBookingRow booking.id "confirmed" (some r.intentID)))
           (.updateTicketRow booking.ticketID "booked" (some (some uid))),
         ls := unlockTicket st.ls tid },
       [.txn [.updateBookingRow booking.id "confirmed" (some r.intentID),
              .updateTicketRow booking.ticketID "booked" (some (some uid))]]) := by
  simp only [confirmBooking]
  rw [hb]
  dsimp only
  rw [if_neg hexp, hl]
  dsimp only
  rw [if_neg (by simp)]
  rw [if_neg (by simp [hr]), h1, hw, h2, h3]
  rfl

/-- Shape of `CancelBooking` when the booking row is found for (id, user): one
committed transaction cancelling the Booking and re-freeing the Ticket,
then unconditional lock release, then 200 — no status check at all. -/
theorem cancelBooking_found_eq (st : SysState) (uid bid : Nat)
    (fail : DbFailures) (booking : Booking)
    (hb : findBookingByIDUser st.db bid uid = some booking)
    (h1 : fail.bookingUpdateFails = false)
    (h2 : fail.ticketUpdateFails = false)
    (h3 : fail.commitFails = false) :
    cancelBooking st (some uid) bid fail =
      (.ok,
       { db := applyWrite
           (applyWrite st.db (.updateBookingRow booking.id "cancelled" none))
           (.updateTicketRow booking.ticketID "available" (some none)),
         ls := unlockTicket st.ls booking.ticketID },
       [.txn [.updateBookingRow booking.id "cancelled" none,
              .updateTicketRow booking.ticketID "available" (some none)]]) := by
  simp only [cancelBooking]
  rw [hb]
  dsimp only
  rw [h1, h2, h3]
  rfl

/-- Shape of `CancelBooking` when no row matches (id, user): 404, no change. -/
theorem cancelBooking_notFound_eq (st : SysState) (uid bid : Nat)
    (fail : DbFailures)
    (hb : findBookingByIDUser st.db bid uid = none) :
    cancelBooking st (some uid) bid fail = (.bookingNotFound, st, []) := by
  simp only [cancelBooking]
  rw [hb]

/-- Shape of `ConfirmBooking` when no reserved booking matches (ticket, user): 404,
no change. -/
theorem confirmBooking_notFound_eq (st : SysState) (uid tid now : Nat)
    (pay : PaymentResult) (fail : DbFailures)
    (hb : findReservedBooking st.db tid uid = none) :
    confirmBooking st (some uid) tid now pay fail =
      (.noActiveReservation, st, []) := by
  simp only [confirmBooking]
  rw [hb]

/-- Every durable trace `CancelBooking` can emit: nothing, or the one
committed cancel transaction. -/
theorem cancelBooking_trace_shape (st : SysState) (auth : Option Nat)
    (bid : Nat) (fail : DbFailures) :
    (cancelBooking st auth bid fail).2.2 = [] ∨
    ∃ b : Booking,
      (cancelBooking st auth bid fail).2.2
        = [.txn [.updateBookingRow b.id "cancelled" none,
                 .updateTicketRow b.ticketID "available" (some none)]] := by
  cases auth with
  | none => exact .inl rfl
  | some uid =>
    cases hf : findBookingByIDUser st.db bid uid with
    | none => rw [cancelBooking_notFound_eq st uid bid fail hf]; exact .inl rfl
    | some b =>
      by_cases h1 : fail.bookingUpdateFails = true
      · simp only [cancelBooking]; rw [hf]; dsimp only
        rw [if_pos h1]; exact .inl rfl
      · by_cases h2 : fail.ticketUpdateFails = true
        · simp only [cancelBooking]; rw [hf]; dsimp only
          rw [if_neg h1, if_pos h2]; exact .inl rfl
        · by_cases h3 : fail.commitFails = true
          · simp only [cancelBooking]; rw [hf]; dsimp only
            rw [if_neg h1, if_neg h2, if_pos h3]; exact .inl rfl
          · rw [cancelBooking_found_eq st uid bid fail b hf
              (Bool.not_eq_true _ ▸ h1) (Bool.not_eq_true _ ▸ h2)
              (Bool.not_eq_true _ ▸ h3)]
            exact .inr ⟨b, rfl⟩

/-- Every durable trace `ConfirmBooking` can emit on a live (non-expired)
reservation: nothing, or the one committed confirm transaction. -/
theorem confirmBooking_live_trace_shape (st : SysState) (uid tid now : Nat)
    (pay : PaymentResult) (fail : DbFailures) (booking : Booking)
    (hb : findReservedBooking st.db tid uid = some booking)
    (hexp : ¬ now > booking.expiresAt) :
    (confirmBooking st (some uid) tid now pay fail).2.2 = [] ∨
    ∃ s : String,
      (confirmBooking st (some uid) tid now pay fail).2.2
        = [.txn [.updateBookingRow booking.id "confirmed" (some s),
                 .updateTicketRow booking.ticketID "booked"
                   (some (some uid))]] := by
  cases hg : getTicketLockOwner st.ls tid with
  | error e =>
    rw [confirmBooking_lock_mismatch_eq st uid tid now pay fail booking hb hexp
      (fun o ho => by rw [hg] at ho; cases ho)]
    exact .inl rfl
  | ok o =>
    by_cases ho : o = uid
    · subst ho
      cases pay with
      | err =>
        rw [confirmBooking_gateway_err_eq st o tid now fail booking hb hexp hg]
        exact .inl rfl
      | resp r =>
        cases hr : r.success with
        | false =>
          rw [confirmBooking_declined_eq st o tid now fail booking r hb hexp
            hg hr]
          exact .inl rfl
        | true =>
          by_cases h1 : fail.bookingUpdateFails = true
          · simp only [confirmBooking]; rw [hb]; dsimp only
            rw [if_neg hexp, hg]; dsimp only
            rw [if_neg (by simp), if_neg (by simp [hr]), if_pos (by simp [h1])]
            exact .inl rfl
          · by_cases hw : dbWriteWellTyped (.updateBookingRow booking.id
                "confirmed" (some r.intentID)) = true
            · have h1f : fail.bookingUpdateFails = false :=
                Bool.not_eq_true _ ▸ h1
              by_cases h2 : fail.ticketUpdateFails = true
              · simp only [confirmBooking]; rw [hb]; dsimp only
                rw [if_neg hexp, hg]; dsimp only
                rw [if_neg (by simp), if_neg (by simp [hr]),
                  if_neg (by simp [h1f, hw]), if_pos h2]
                exact .inl rfl
              · by_cases h3 : fail.commitFails = true
                · simp only [confirmBooking]; rw [hb]; dsimp only
                  rw [if_neg hexp, hg]; dsimp only
                  rw [if_neg (by simp), if_neg (by simp [hr]),
                    if_neg (by simp [h1f, hw]), if_neg h2, if_pos h3]
                  exact .inl rfl
                · rw [confirmBooking_success_eq st o tid now fail booking r hb
                    hexp hg hr hw h1f
                    (Bool.not_eq_true _ ▸ h2) (Bool.not_eq_true _ ▸ h3)]
                  exact .inr ⟨r.intentID, rfl⟩
            · have hwf : dbWriteWellTyped (.updateBookingRow booking.id
                  "confirmed" (some r.intentID)) = false :=
                Bool.not_eq_true _ ▸ hw
              simp only [confirmBooking]; rw [hb]; dsimp only
              rw [if_neg hexp, hg]; dsimp only
              rw [if_neg (by simp), if_neg (by simp [hr]),
                if_pos (by simp [hwf])]
              exact .inl rfl
    · rw [confirmBooking_lock_mismatch_eq st uid tid now pay fail booking hb
        hexp (fun o2 ho2 => by rw [hg] at ho2; cases ho2; exact ho)]
      exact .inl rfl

/-- Booking writes and deletes do not touch ticket rows. -/
theorem findTicket_createBooking (db : DB) (b : Booking) (tid : Nat) :
    findTicket (applyWrite db (.createBooking b)) tid = findTicket db tid :=
  rfl

theorem findTicket_deleteBooking (db : DB) (bid tid : Nat) :
    findTicket (applyWrite db (.deleteBooking bid)) tid = findTicket db tid :=
  rfl

theorem findTicket_updateBookingRow (db : DB) (bid : Nat) (s : String)
    (payRef : Option String) (tid : Nat) :
    findTicket (applyWrite db (.updateBookingRow bid s payRef)) tid
      = findTicket db tid :=
  rfl

/-- Ticket writes do not touch booking rows. -/
theorem findBookingByID_updateTicketRow (db : DB) (tid : Nat) (s : String)
    (o : Option (Option Nat)) (bid : Nat) :
    findBookingByID (applyWrite db (.updateTicketRow tid s o)) bid
      = findBookingByID db bid :=
  rfl

/-- The mock gateway intent id is never the empty string. -/
theorem pi_mock_ne_empty (uid now : Nat) :
    "pi_mock_" ++ toString uid ++ "_" ++ toString now ≠ "" := by
  intro h
  have hlen := congrArg String.length h
  have h8 : ("pi_mock_" : String).length = 8 := rfl
  have h1 : ("_" : String).length = 1 := rfl
  have h0 : ("" : String).length = 0 := rfl
  simp only [String.length_append, h8, h1, h0] at hlen
  omega

/-! ## Claims -/

/-- C6: in Reserve, when the Durable Store booking insert fails after the
lock was acquired, the coordinator releases the lock before returning the
error: the response is the 500 create-failure, the durable store is
untouched, no durable write is recorded, and no lock entry remains for the
ticket. -/
theorem C6_reserve_write_failure_releases_lock
    (st : SysState) (uid tid now : Nat) (fail : DbFailures) (t : Ticket)
    (ht : findTicket st.db tid = some t) (hs : t.status = "available")
    (hl : lockEntryOf st.ls tid = none)
    (hc : fail.createBookingFails = true) :
    (reserveTicket st (some uid) tid now fail).1 = .createFailed
    ∧ (reserveTicket st (some uid) tid now fail).2.1.db = st.db
    ∧ (reserveTicket st (some uid) tid now fail).2.2 = []
    ∧ lockEntryOf (reserveTicket st (some uid) tid now fail).2.1.ls tid
        = none := by
  have heq : reserveTicket st (some uid) tid now fail =
      (.createFailed,
       { db := st.db,
         ls := unlockTicket { locks := (tid, ⟨uid, 600⟩) :: st.ls.locks } tid },
       []) := by
    unfold reserveTicket
    rw [ht]
    dsimp only
    rw [hs]
    rw [lockTicket_of_absent st.ls tid uid hl]
    dsimp only
    rw [hc]
    rfl
  rw [heq]
  exact ⟨rfl, rfl, rfl, lockEntryOf_unlock _ tid⟩

/-- Witness for C6 on the concrete one-ticket store. -/
theorem C6_witness :
    (reserveTicket stAvail (some 7) 1 0 ⟨true, false, false, false⟩).1
        = .createFailed
    ∧ (reserveTicket stAvail (some 7) 1 0 ⟨true, false, false, false⟩).2.1.db
        = stAvail.db
    ∧ (reserveTicket stAvail (some 7) 1 0 ⟨true, false, false, false⟩).2.2 = []
    ∧ lockEntryOf
        (reserveTicket stAvail (some 7) 1 0 ⟨true, false, false, false⟩).2.1.ls
        1 = none :=
  C6_reserve_write_failure_releases_lock stAvail 7 1 0
    ⟨true, false, false, false⟩ tAvail rfl rfl rfl rfl

/-- C9: the booking created by a successful Reserve has
expires_at = reserved_at + 600 seconds (the fixed 10-minute hold), and the
lock entry acquired for the ticket carries that same TTL of 600 seconds. -/
theorem C9_hold_duration_and_lock_ttl
    (st : SysState) (uid tid now : Nat) (fail : DbFailures) (t : Ticket)
    (ht : findTicket st.db tid = some t) (hs : t.status = "available")
    (hl : lockEntryOf st.ls tid = none)
    (hc : fail.createBookingFails = false) :
    (reserveTicket st (some uid) tid now fail).2.1.db.bookings
        = st.db.bookings ++ [reservedRow st.db tid uid now]
    ∧ (reservedRow st.db tid uid now).expiresAt
        = (reservedRow st.db tid uid now).reservedAt + 600
    ∧ lockEntryOf (reserveTicket st (some uid) tid now fail).2.1.ls tid
        = some ⟨uid, 600⟩ := by
  rw [reserveTicket_ok st uid tid now fail t ht hs hl hc]
  refine ⟨rfl, rfl, ?_⟩
  unfold lockEntryOf
  rw [List.find?_cons_of_pos _ (by simp)]
  rfl

/-- Witness for C9 on the concrete one-ticket store. -/
theorem C9_witness :
    (reserveTicket stAvail (some 7) 1 0 noDbFailures).2.1.db.bookings
        = stAvail.db.bookings ++ [reservedRow stAvail.db 1 7 0]
    ∧ (reservedRow stAvail.db 1 7 0).expiresAt
        = (reservedRow stAvail.db 1 7 0).reservedAt + 600
    ∧ lockEntryOf (reserveTicket stAvail (some 7) 1 0 noDbFailures).2.1.ls 1
        = some ⟨7, 600⟩ :=
  C9_hold_duration_and_lock_ttl stAvail 7 1 0 noDbFailures tAvail
    rfl rfl rfl rfl

/-- C3 counterexample: a successful Reserve on available ticket 1 leaves the
Ticket row with status "reserved", not "locked" — the claimed
{available, locked, booked} domain with `Ticket.status=locked` does not
match the code. -/
theorem C3_counterexample :
    (reserveTicket stAvail (some 7) 1 0 noDbFailures).1
        = ReserveResp.ok 1 1 600
    ∧ (findTicket (reserveTicket stAvail (some 7) 1 0 noDbFailures).2.1.db
        1).map (fun x => x.status) = some "reserved"
    ∧ (findTicket (reserveTicket stAvail (some 7) 1 0 noDbFailures).2.1.db
        1).map (fun x => x.status) ≠ some "locked" := by
  refine ⟨rfl, rfl, ?_⟩
  decide

/-- C3 amended: a successful Reserve(ticketID, userID) on an available
ticket creates a Booking with status "reserved" and sets the Ticket
status to "reserved" (not "locked"; the ticket-status strings in the code are
"available", "reserved", "booked"), and records the lock holder. -/
theorem C3_reserve_amended
    (st : SysState) (uid tid now : Nat) (fail : DbFailures) (t : Ticket)
    (ht : findTicket st.db tid = some t) (hs : t.status = "available")
    (hl : lockEntryOf st.ls tid = none)
    (hc : fail.createBookingFails = false) :
    (reserveTicket st (some uid) tid now fail).1
        = .ok st.db.nextBookingID tid (now + 600)
    ∧ (reserveTicket st (some uid) tid now fail).2.1.db.bookings
        = st.db.bookings ++ [reservedRow st.db tid uid now]
    ∧ (reservedRow st.db tid uid now).status = "reserved"
    ∧ (findTicket (reserveTicket st (some uid) tid now fail).2.1.db tid).map
        (fun x => x.status) = some "reserved"
    ∧ lockEntryOf (reserveTicket st (some uid) tid now fail).2.1.ls tid
        = some ⟨uid, 600⟩ := by
  rw [reserveTicket_ok st uid tid now fail t ht hs hl hc]
  refine ⟨rfl, rfl, rfl, ?_, ?_⟩
  · show (findTicket (applyWrite
        (applyWrite st.db (.createBooking (reservedRow st.db tid uid now)))
        (.updateTicketRow tid "reserved" none)) tid).map
        (fun x => x.status) = some "reserved"
    rw [findTicket_applyUpdate, findTicket_createBooking, ht]
    rfl
  · unfold lockEntryOf
    rw [List.find?_cons_of_pos _ (by simp)]
    rfl

/-- Witness for the amended C3 on the concrete one-ticket store. -/
theorem C3_amended_witness :
    (reserveTicket stAvail (some 7) 1 0 noDbFailures).1
        = .ok stAvail.db.nextBookingID 1 (0 + 600)
    ∧ (reserveTicket stAvail (some 7) 1 0 noDbFailures).2.1.db.bookings
        = stAvail.db.bookings ++ [reservedRow stAvail.db 1 7 0]
    ∧ (reservedRow stAvail.db 1 7 0).status = "reserved"
    ∧ (findTicket (reserveTicket stAvail (some 7) 1 0 noDbFailures).2.1.db
        1).map (fun x => x.status) = some "reserved"
    ∧ lockEntryOf (reserveTicket stAvail (some 7) 1 0 noDbFailures).2.1.ls 1
        = some ⟨7, 600⟩ :=
  C3_reserve_amended stAvail 7 1 0 noDbFailures tAvail rfl rfl rfl rfl

/-- C2 counterexample: booking 1 of user 7 is already cancelled and its
ticket already available, yet a second Cancel returns 200 (not
NotFound/Conflict) and re-runs the ticket-available write — the lookup in the code filters only on (id, user), never on status. -/
theorem C2_counterexample :
    findBookingByIDUser stCancelled.db 1 7
        = some { bRes with status := "cancelled" }
    ∧ (cancelBooking stCancelled (some 7) 1 noDbFailures).1 = CancelResp.ok
    ∧ (cancelBooking stCancelled (some 7) 1 noDbFailures).2.2
        = [.txn [.updateBookingRow 1 "cancelled" none,
                 .updateTicketRow 1 "available" (some none)]] :=
  ⟨rfl, rfl, rfl⟩

/-- C2 amended: Cancel succeeds whenever the booking exists and belongs to
the calling user, with no status check at all: even an already-cancelled
booking is cancelled again with the ticket re-set to available; only a
missing row (absent id or a booking of another user) yields NotFound. -/
theorem C2_cancel_amended (st : SysState) (uid bid : Nat)
    (fail : DbFailures) (booking : Booking)
    (h1 : fail.bookingUpdateFails = false)
    (h2 : fail.ticketUpdateFails = false)
    (h3 : fail.commitFails = false) :
    (findBookingByIDUser st.db bid uid = none →
       cancelBooking st (some uid) bid fail = (.bookingNotFound, st, []))
    ∧ (findBookingByIDUser st.db bid uid = some booking →
       (cancelBooking st (some uid) bid fail).1 = .ok
       ∧ (cancelBooking st (some uid) bid fail).2.2
           = [.txn [.updateBookingRow booking.id "cancelled" none,
                    .updateTicketRow booking.ticketID "available"
                      (some none)]]) := by
  constructor
  · intro hb
    exact cancelBooking_notFound_eq st uid bid fail hb
  · intro hb
    rw [cancelBooking_found_eq st uid bid fail booking hb h1 h2 h3]
    exact ⟨rfl, rfl⟩

/-- Witness for the amended C2 at the already-cancelled fixture. -/
theorem C2_amended_witness :
    (findBookingByIDUser stCancelled.db 1 7 = none →
       cancelBooking stCancelled (some 7) 1 noDbFailures
         = (.bookingNotFound, stCancelled, []))
    ∧ (findBookingByIDUser stCancelled.db 1 7
          = some { bRes with status := "cancelled" } →
       (cancelBooking stCancelled (some 7) 1 noDbFailures).1 = .ok
       ∧ (cancelBooking stCancelled (some 7) 1 noDbFailures).2.2
           = [.txn [.updateBookingRow ({ bRes with status := "cancelled" } :
                      Booking).id "cancelled" none,
                    .updateTicketRow ({ bRes with status := "cancelled" } :
                      Booking).ticketID "available" (some none)]]) :=
  C2_cancel_amended stCancelled 7 1 noDbFailures
    { bRes with status := "cancelled" } rfl rfl rfl

/-- C7: in Confirm on a live reservation whose lock the caller still holds,
a gateway transport error yields 500 and a declined payment yields 402; in
both cases the state is returned untouched, no durable write is recorded,
the booking is still the reserved one, and the lock entry is unchanged. -/
theorem C7_payment_failure_no_mutation
    (st : SysState) (uid tid now : Nat) (fail : DbFailures)
    (booking : Booking) (r : PaymentResponse)
    (hb : findReservedBooking st.db tid uid = some booking)
    (hexp : ¬ now > booking.expiresAt)
    (hl : getTicketLockOwner st.ls tid = .ok uid)
    (hr : r.success = false) :
    confirmBooking st (some uid) tid now .err fail
        = (.paymentProcessingFailed, st, [])
    ∧ confirmBooking st (some uid) tid now (.resp r) fail
        = (.paymentFailed r.errMsg, st, [])
    ∧ booking.status = "reserved"
    ∧ findReservedBooking
        (confirmBooking st (some uid) tid now (.resp r) fail).2.1.db tid uid
        = some booking
    ∧ lockEntryOf
        (confirmBooking st (some uid) tid now (.resp r) fail).2.1.ls tid
        = lockEntryOf st.ls tid := by
  have hstatus : booking.status = "reserved" := by
    have hb2 : st.db.bookings.find? (fun b =>
        b.ticketID == tid && b.userID == uid && b.status == "reserved")
        = some booking := hb
    have hp := List.find?_some hb2
    simp only [Bool.and_eq_true, beq_iff_eq] at hp
    exact hp.2
  rw [confirmBooking_gateway_err_eq st uid tid now fail booking hb hexp hl,
    confirmBooking_declined_eq st uid tid now fail booking r hb hexp hl hr]
  exact ⟨rfl, rfl, hstatus, hb, rfl⟩

/-- Witness for C7 at the live-reservation fixture with a declining
gateway response. -/
theorem C7_witness :
    confirmBooking stRes (some 7) 1 100 .err noDbFailures
        = (.paymentProcessingFailed, stRes, [])
    ∧ confirmBooking stRes (some 7) 1 100
        (.resp ⟨"pi_x", false, "declined"⟩) noDbFailures
        = (.paymentFailed (⟨"pi_x", false, "declined"⟩ :
            PaymentResponse).errMsg, stRes, [])
    ∧ bRes.status = "reserved"
    ∧ findReservedBooking
        (confirmBooking stRes (some 7) 1 100
          (.resp ⟨"pi_x", false, "declined"⟩) noDbFailures).2.1.db 1 7
        = some bRes
    ∧ lockEntryOf
        (confirmBooking stRes (some 7) 1 100
          (.resp ⟨"pi_x", false, "declined"⟩) noDbFailures).2.1.ls 1
        = lockEntryOf stRes.ls 1 :=
  C7_payment_failure_no_mutation stRes 7 1 100 noDbFailures bRes
    ⟨"pi_x", false, "declined"⟩ rfl (by decide) rfl rfl

/-- C8: in Confirm on a live reservation, when the Lock Store has no holder
for the ticket or the holder differs from the caller, the handler returns
409 LockReleased with the state returned untouched and no durable write. -/
theorem C8_lock_mismatch_no_mutation
    (st : SysState) (uid tid now : Nat) (pay : PaymentResult)
    (fail : DbFailures) (booking : Booking)
    (hb : findReservedBooking st.db tid uid = some booking)
    (hexp : ¬ now > booking.expiresAt)
    (hl : ∀ o, getTicketLockOwner st.ls tid = .ok o → o ≠ uid) :
    confirmBooking st (some uid) tid now pay fail
      = (.lockReleased, st, []) :=
  confirmBooking_lock_mismatch_eq st uid tid now pay fail booking hb hexp hl

/-- Witness for C8: live reservation of user 7 but the lock is now held by
user 9 (expired and stolen). -/
theorem C8_witness :
    confirmBooking
        { stRes with ls := { locks := [(1, ⟨9, 600⟩)] } } (some 7) 1 100
        (mockCreatePaymentIntent 7 100 true) noDbFailures
      = (.lockReleased, { stRes with ls := { locks := [(1, ⟨9, 600⟩)] } },
         []) :=
  C8_lock_mismatch_no_mutation
    { stRes with ls := { locks := [(1, ⟨9, 600⟩)] } } 7 1 100
    (mockCreatePaymentIntent 7 100 true) noDbFailures bRes rfl (by decide)
    (fun o ho => by
      cases ho
      decide)

/-- C10: the booking listing returns data only when the authenticated
caller id equals the requested user id (any mismatch, or a missing
token, is rejected with no booking data), and every booking in a
successful response belongs to that user. -/
theorem C10_listing_access_control
    (st : SysState) (auth : Option Nat) (req : Nat) (l : List Booking)
    (b : Booking) :
    (getUserBookings st auth req = .ok l →
       auth = some req ∧ (b ∈ l → b.userID = req))
    ∧ (auth ≠ some req → getUserBookings st auth req ≠ .ok l) := by
  have key : getUserBookings st auth req = .ok l →
      auth = some req ∧ (b ∈ l → b.userID = req) := by
    intro h
    cases auth with
    | none => exact absurd h (by simp [getUserBookings])
    | some uid =>
      simp only [getUserBookings] at h
      by_cases he : (uid != req) = true
      · rw [if_pos he] at h
        exact absurd h (by simp)
      · rw [if_neg he] at h
        have huid : uid = req := by simpa using he
        refine ⟨by rw [huid], ?_⟩
        intro hmem
        have hl : l = findUserBookings st.db req := by
          cases h
          rfl
        rw [hl] at hmem
        have := (List.mem_filter.mp hmem).2
        simpa using this
  exact ⟨key, fun hne h => hne (key h).1⟩

/-- Witness for C10: user 7 lists their own bookings and every returned
booking belongs to user 7. -/
theorem C10_witness :
    (some 7 : Option Nat) = some 7 ∧ (bRes ∈ [bRes] → bRes.userID = 7) :=
  (C10_listing_access_control stRes (some 7) 7 [bRes] bRes).1 rfl

/-- C1 counterexample: on the expired-reservation cleanup path of Confirm the
booking delete and the ticket reset to available are issued as two separate
non-transactional store writes (with the lock release between them), so the
claimed always-atomic pairing of Booking and Ticket updates is false. -/
theorem C1_counterexample :
    ¬ ∀ (st : SysState) (auth : Option Nat) (tid now : Nat)
        (pay : PaymentResult) (fail : DbFailures),
        tracePairsAtomically
          (confirmBooking st auth tid now pay fail).2.2 = true := by
  intro h
  have h1 := h stRes (some 7) 1 700 (mockCreatePaymentIntent 7 700 true)
    noDbFailures
  have h2 : tracePairsAtomically
      (confirmBooking stRes (some 7) 1 700
        (mockCreatePaymentIntent 7 700 true) noDbFailures).2.2 = false := rfl
  exact absurd (h1.symm.trans h2) (by decide)

/-- C1 amended: Cancel (on every path) and the Confirm success path pair the
Booking and Ticket updates inside one committed transaction, but the Confirm
expired-cleanup path performs them as two separate non-transactional
writes: delete the booking, then reset the ticket. -/
theorem C1_atomicity_amended
    (st : SysState) (uid tid bid now : Nat) (auth : Option Nat)
    (pay : PaymentResult) (fail : DbFailures) (booking : Booking)
    (hb : findReservedBooking st.db tid uid = some booking) :
    tracePairsAtomically (cancelBooking st auth bid fail).2.2 = true
    ∧ (¬ now > booking.expiresAt →
        tracePairsAtomically
          (confirmBooking st (some uid) tid now pay fail).2.2 = true)
    ∧ (now > booking.expiresAt →
        (confirmBooking st (some uid) tid now pay fail).2.2
            = [.single (.deleteBooking booking.id),
               .single (.updateTicketRow tid "available" none)]
        ∧ tracePairsAtomically
            (confirmBooking st (some uid) tid now pay fail).2.2 = false) := by
  refine ⟨?_, ?_, ?_⟩
  · rcases cancelBooking_trace_shape st auth bid fail with h | ⟨b, h⟩ <;>
      rw [h] <;> rfl
  · intro hexp
    rcases confirmBooking_live_trace_shape st uid tid now pay fail booking
      hb hexp with h | ⟨s, h⟩ <;> rw [h] <;> rfl
  · intro hexp
    rw [confirmBooking_expired_eq st uid tid now pay fail booking hb hexp]
    exact ⟨rfl, rfl⟩

/-- Witness for the amended C1 at the expired-reservation fixture. -/
theorem C1_amended_witness :
    tracePairsAtomically
        (cancelBooking stRes (some 7) 1 noDbFailures).2.2 = true
    ∧ (¬ 700 > bRes.expiresAt →
        tracePairsAtomically
          (confirmBooking stRes (some 7) 1 700
            (mockCreatePaymentIntent 7 700 true) noDbFailures).2.2 = true)
    ∧ (700 > bRes.expiresAt →
        (confirmBooking stRes (some 7) 1 700
            (mockCreatePaymentIntent 7 700 true) noDbFailures).2.2
            = [.single (.deleteBooking bRes.id),
               .single (.updateTicketRow 1 "available" none)]
        ∧ tracePairsAtomically
            (confirmBooking stRes (some 7) 1 700
              (mockCreatePaymentIntent 7 700 true) noDbFailures).2.2
            = false) :=
  C1_atomicity_amended stRes 7 1 1 700 (some 7)
    (mockCreatePaymentIntent 7 700 true) noDbFailures bRes rfl

/-- C4: Confirm called after the expires_at of the reservation deletes the
booking, releases the lock, resets the ticket to available and returns
410 Expired; and — provided the expired booking was the only reserved row
for (ticket, user) — a duplicate Confirm finds no reservation, changes
nothing, and so the reset happens exactly once. -/
theorem C4_confirm_after_expiry
    (st : SysState) (uid tid now now2 : Nat) (pay pay2 : PaymentResult)
    (fail fail2 : DbFailures) (booking : Booking) (t : Ticket)
    (hb : findReservedBooking st.db tid uid = some booking)
    (hexp : now > booking.expiresAt)
    (ht : findTicket st.db tid = some t)
    (huniq : ∀ b ∈ st.db.bookings,
        (b.ticketID == tid && b.userID == uid
          && b.status == "reserved") = true → b.id = booking.id) :
    (confirmBooking st (some uid) tid now pay fail).1 = .expired
    ∧ (findTicket (confirmBooking st (some uid) tid now pay fail).2.1.db
        tid).map (fun x => x.status) = some "available"
    ∧ lockEntryOf (confirmBooking st (some uid) tid now pay fail).2.1.ls tid
        = none
    ∧ findReservedBooking
        (confirmBooking st (some uid) tid now pay fail).2.1.db tid uid = none
    ∧ confirmBooking (confirmBooking st (some uid) tid now pay fail).2.1
        (some uid) tid now2 pay2 fail2
        = (.noActiveReservation,
           (confirmBooking st (some uid) tid now pay fail).2.1, []) := by
  rw [confirmBooking_expired_eq st uid tid now pay fail booking hb hexp]
  dsimp only
  have h4 : findReservedBooking
      (applyWrite (applyWrite st.db (.deleteBooking booking.id))
        (.updateTicketRow tid "available" none)) tid uid = none := by
    have hshape : findReservedBooking
        (applyWrite (applyWrite st.db (.deleteBooking booking.id))
          (.updateTicketRow tid "available" none)) tid uid
        = (st.db.bookings.filter (fun b => b.id != booking.id)).find?
            (fun b => b.ticketID == tid && b.userID == uid
              && b.status == "reserved") := rfl
    rw [hshape, List.find?_eq_none]
    intro b hbmem
    obtain ⟨hmem, hneq⟩ := List.mem_filter.mp hbmem
    intro hp
    have hid := huniq b hmem hp
    simp [hid] at hneq
  refine ⟨rfl, ?_, lockEntryOf_unlock st.ls tid, h4, ?_⟩
  · rw [findTicket_applyUpdate, findTicket_deleteBooking, ht]
    rfl
  · exact confirmBooking_notFound_eq _ uid tid now2 pay2 fail2 h4

/-- Witness for C4: user 7 confirms ticket 1 at time 700, after the
reservation expired at 600; a duplicate call at 800 changes nothing. -/
theorem C4_witness :
    (confirmBooking stRes (some 7) 1 700
        (mockCreatePaymentIntent 7 700 true) noDbFailures).1 = .expired
    ∧ (findTicket (confirmBooking stRes (some 7) 1 700
        (mockCreatePaymentIntent 7 700 true) noDbFailures).2.1.db 1).map
        (fun x => x.status) = some "available"
    ∧ lockEntryOf (confirmBooking stRes (some 7) 1 700
        (mockCreatePaymentIntent 7 700 true) noDbFailures).2.1.ls 1 = none
    ∧ findReservedBooking (confirmBooking stRes (some 7) 1 700
        (mockCreatePaymentIntent 7 700 true) noDbFailures).2.1.db 1 7 = none
    ∧ confirmBooking (confirmBooking stRes (some 7) 1 700
        (mockCreatePaymentIntent 7 700 true) noDbFailures).2.1
        (some 7) 1 800 (mockCreatePaymentIntent 7 800 true) noDbFailures
        = (.noActiveReservation,
           (confirmBooking stRes (some 7) 1 700
             (mockCreatePaymentIntent 7 700 true) noDbFailures).2.1, []) :=
  C4_confirm_after_expiry stRes 7 1 700 800
    (mockCreatePaymentIntent 7 700 true) (mockCreatePaymentIntent 7 800 true)
    noDbFailures noDbFailures bRes { tAvail with status := "reserved" }
    rfl (by decide) rfl (by decide)


/-- C5: refuted as stated — the code has a bug the spec does not intend.
`models.Booking` declares `PaymentID uint`, a numeric column, but the
confirm transaction sends the mock gateway intent id
`pi_mock_<uid>_<unix>` — never a decimal numeral — as the `payment_id`
payload, so its first statement errors, the transaction rolls back and the
handler returns 500.  Evaluated at the failing input (Reserve ticket 1 as
user 7 at time 0, Confirm at time 60 with the gateway approving): the
intent id does not coerce to a number, the response is the 500
confirm-failure, no durable action commits, the ticket and booking stay
"reserved" with payment reference 0, and the lock is still held. -/
theorem C5_payment_ref_type_error :
    decimalValue? ("pi_mock_" ++ toString 7 ++ "_" ++ toString 60) = none
    ∧ (reserveThenConfirm stAvail 7 1 0 60).1 = ConfirmResp.confirmFailed
    ∧ (reserveThenConfirm stAvail 7 1 0 60).2.2 = []
    ∧ (findTicket (reserveThenConfirm stAvail 7 1 0 60).2.1.db 1).map
        (fun x => x.status) = some "reserved"
    ∧ (findBookingByID (reserveThenConfirm stAvail 7 1 0 60).2.1.db 1).map
        (fun b => (b.status, b.paymentID)) = some ("reserved", 0)
    ∧ lockEntryOf (reserveThenConfirm stAvail 7 1 0 60).2.1.ls 1
        = some ⟨7, 600⟩ := by
  refine ⟨by decide, rfl, rfl, rfl, rfl, rfl⟩
